import Mathlib

/-!
Verification development for the Career_Suite_v4.5 resume-tailoring pipeline.

This file contains a shallow embedding of the pure data-transformation core of
the pipeline (`Main.gs`, `TailoringLogic.gs`, `MasterResumeData.gs`,
`Constants.gs`) together with theorems about it.

Modelling conventions:
* JavaScript strings are Lean `String`s; the host string primitives used by the
  source (`trim`, `toUpperCase`, `toLowerCase`, `startsWith`, `substring`) are
  embedded as executable char-list functions (`jsTrim`, `jsToUpper`, ...).
* JavaScript numbers that the source treats as decimal scores are embedded as
  exact rationals `ℚ`; `Number.prototype.toFixed(2)` (followed by the
  `parseFloat` read-back in stage 3) is embedded as rounding to a multiple of
  `1/100` (`toFixed2`).
* Host capabilities (`JSON.parse`, `new Date(...)` parsing, the LLM transport)
  are oracle parameters of the embedded functions, mirroring the spec's
  external-collaborator boundary.
* Spreadsheet rows of the `BulletScoringResults` sheet are embedded as the
  structure `ScoredRow`, one field per column, in column order.
-/

set_option maxHeartbeats 1000000

/-! ## JavaScript string primitives -/

/-- Whitespace test used by the embedded `String.prototype.trim`. -/
def jsWhitespaceChar (c : Char) : Bool :=
  c = ' ' || c = '\t' || c = '\n' || c = '\r' || c = '\x0b' || c = '\x0c'

/-- Char-list core of `String.prototype.trim`: drop leading and trailing whitespace. -/
def trimChars (l : List Char) : List Char :=
  List.rdropWhile jsWhitespaceChar (l.dropWhile jsWhitespaceChar)

/-- Embedding of JavaScript `s.trim()`. -/
def jsTrim (s : String) : String :=
  String.mk (trimChars s.data)

/-- Embedding of JavaScript `s.toUpperCase()` (ASCII range, which is all the source compares). -/
def jsToUpper (s : String) : String :=
  String.mk (s.data.map Char.toUpper)

/-- Embedding of JavaScript `s.toLowerCase()` (ASCII range). -/
def jsToLower (s : String) : String :=
  String.mk (s.data.map Char.toLower)

/-- Char-list prefix test (first argument is the string, second the pattern). -/
def charsStartWith : List Char → List Char → Bool
  | _, [] => true
  | [], _ :: _ => false
  | c :: cs, p :: ps => c == p && charsStartWith cs ps

/-- Embedding of JavaScript `s.startsWith(pat)`. -/
def strStartsWith (s pat : String) : Bool :=
  charsStartWith s.data pat.data

/-- Embedding of JavaScript `s.endsWith(pat)`. -/
def strEndsWith (s pat : String) : Bool :=
  charsStartWith s.data.reverse pat.data.reverse

/-- Embedding of JavaScript `s.substring(n)` (drop the first `n` characters). -/
def strDropLeft (s : String) (n : Nat) : String :=
  String.mk (s.data.drop n)

/-- Embedding of JavaScript `s.substring(0, s.length - n)` (drop the last `n` characters). -/
def strDropRight (s : String) (n : Nat) : String :=
  String.mk (s.data.take (s.data.length - n))

/-- Embedding of JavaScript `Array.prototype.join(sep)`. -/
def joinSep (sep : String) : List String → String
  | [] => ""
  | [x] => x
  | x :: y :: xs => x ++ sep ++ joinSep sep (y :: xs)

/-! ## DataNormalizer: dedicated bullet columns (`MasterResumeData.gs`, `processAccumulatedSection`)

`processAccumulatedSection` first trims every mapped cell value
(`newItem[jsKey] = (...).toString().trim()`, line 417) and then, for
`k = 1 .. NUM_DEDICATED_BULLET_COLUMNS`, pushes `item[bulletKey].trim()` whenever
`item[bulletKey] && item[bulletKey].trim() !== ""` (lines 431-452).  The function
below takes the raw cell values of the numbered bullet columns, in column order,
and produces the item's bullet sequence. -/

/-- Constant `NUM_DEDICATED_BULLET_COLUMNS` from `Constants.gs`. -/
def NUM_DEDICATED_BULLET_COLUMNS : Nat := 3

/-- Embedding of the numbered-bullet-column collection loop of
`processAccumulatedSection` (`MasterResumeData.gs` lines 431-452), composed with
the per-cell trim of line 417.  Input: the raw values of the
`Responsibility1..N` (resp. `DescriptionBullet1..N`) cells in column order. -/
def collectDedicatedBullets : List String → List String
  | [] => []
  | cell :: rest =>
    let v := jsTrim cell
    if v ≠ "" ∧ jsTrim v ≠ "" then jsTrim v :: collectDedicatedBullets rest
    else collectDedicatedBullets rest

/-! ## DataNormalizer: date formatting (`MasterResumeData.gs`, `formatDateFromSheet`)

The host date parser `new Date(dateString)` together with
`getMonth ()`/`getFullYear ()` is an oracle parameter
`parseDate : String → Option (Nat × Int)` (`none` models an invalid date,
`some (m, y)` a parse with month index `m` (0-11) and year `y`).  By the time
`processAccumulatedSection` calls this helper every cell has already been
converted to a string (`String(c)` at line 251 resp. 382 of
`MasterResumeData.gs`), so the `instanceof Date` branch is dead at its call
sites and the cell argument is a string. -/

/-- Month names table of `formatDateFromSheet`. -/
def monthNames : List String :=
  ["January", "February", "March", "April", "May", "June", "July", "August",
   "September", "October", "November", "December"]

/-- Test for the regex `/^\d{4}$/` of `formatDateFromSheet`. -/
def isBareYearShape (s : String) : Bool :=
  s.data.length = 4 && s.data.all Char.isDigit

/-- Test for the regex `/^[A-Za-z]{3,9}\s\d{4}$/` of `formatDateFromSheet`. -/
def isMonthYearShape (s : String) : Bool :=
  let letters := s.data.takeWhile Char.isAlpha
  let rest := s.data.dropWhile Char.isAlpha
  3 ≤ letters.length && letters.length ≤ 9 &&
    match rest with
    | c :: ds => jsWhitespaceChar c && ds.length = 4 && ds.all Char.isDigit
    | [] => false

/-- Embedding of `formatDateFromSheet` (`MasterResumeData.gs` lines 22-50) for a
string-valued cell.  `parseDate` is the host `new Date(...)` oracle; a month
index outside `0..11` renders as the literal `"undefined"`, as JavaScript's
`monthNames[dateObj.getMonth()]` would. -/
def formatDateFromSheet (parseDate : String → Option (Nat × Int))
    (dateCellValue : String) (isPotentialEndDate : Bool := false) : String :=
  if jsTrim dateCellValue = "" then
    if isPotentialEndDate then "Present" else ""
  else
    let dateString := jsTrim dateCellValue
    if jsToUpper dateString = "PRESENT" then "Present"
    else
      match parseDate dateString with
      | none => dateString
      | some (month, year) =>
        if isBareYearShape dateString then dateString
        else if isMonthYearShape dateString then dateString
        else (monthNames.getD month "undefined") ++ " " ++ toString year

/-! ## SelectionStore: the `BulletScoringResults` sheet

One `ScoredRow` per data row of the sheet, one field per column, in the column
order written by stage 1 (`Main.gs` line 235).  `relevanceScore` holds the
rational value of the `RelevanceScore` cell (stage 1 writes `score.toFixed(2)`;
stage 3 reads it back with `parseFloat`). -/

/-- A data row of the `BulletScoringResults` sheet. -/
structure ScoredRow where
  uniqueId : String
  sectionTitle : String
  itemIdentifier : String
  originalBulletText : String
  relevanceScore : ℚ
  matchingKeywords : String
  justification : String
  selectToTailor : String
  tailoredBulletText : String
deriving DecidableEq

/-- The four truthy spellings accepted for the user-selection flag
(`Main.gs` lines 549, 722, 753, 790, 818). -/
def truthySelectionFlags : List String := ["YES", "TRUE", "1", "X"]

/-- Embedding of `["YES", "TRUE", "1", "X"].includes(String(flag).toUpperCase().trim())`. -/
def isSelectedFlag (flag : String) : Bool :=
  truthySelectionFlags.contains (jsTrim (jsToUpper flag))

/-- Constant `STAGE3_FINAL_INCLUSION_SCORE_THRESHOLD = 0.01` from `Constants.gs`. -/
def STAGE3_FINAL_INCLUSION_SCORE_THRESHOLD : ℚ := mkRat 1 100

/-- Constant `STAGE3_MAX_BULLETS_PER_JOB = 5` from `Constants.gs`. -/
def STAGE3_MAX_BULLETS_PER_JOB : Nat := 5

/-- Constant `STAGE3_MAX_BULLETS_PER_PROJECT = 5` from `Constants.gs`. -/
def STAGE3_MAX_BULLETS_PER_PROJECT : Nat := 5

/-- Constant `STAGE3_MAX_HIGHLIGHTS_FOR_SUMMARY = 4` from `Constants.gs`. -/
def STAGE3_MAX_HIGHLIGHTS_FOR_SUMMARY : Nat := 4

/-- The stage-3 per-row inclusion filter
`parseFloat(sb.RelevanceScore) >= STAGE3_FINAL_INCLUSION_SCORE_THRESHOLD &&
["YES","TRUE","1","X"].includes(String(sb["SelectToTailor(Manual)"]).toUpperCase().trim())`
(`Main.gs` lines 721-722 and the analogous lines for the other sections). -/
def stage3RowQualifies (r : ScoredRow) : Bool :=
  decide (STAGE3_FINAL_INCLUSION_SCORE_THRESHOLD ≤ r.relevanceScore) &&
    isSelectedFlag r.selectToTailor

/-- The "not suitable" sentinel phrase returned verbatim by the tailoring model
(all-lowercase form, as the source compares it). -/
def notSuitableSentinel : String :=
  "original bullet not suitable for significant tailoring towards this role."

/-- Embedding of the stage-3 helper `getBulletTextToUse` (`Main.gs` lines 698-708). -/
def getBulletTextToUse (scoredBulletEntry : ScoredRow) : String :=
  let tailoredTextFromSheet := scoredBulletEntry.tailoredBulletText
  if tailoredTextFromSheet ≠ "" ∧ jsTrim tailoredTextFromSheet ≠ "" ∧
      strStartsWith (jsToUpper tailoredTextFromSheet) "TAILOR_FAIL" = false ∧
      jsToLower tailoredTextFromSheet ≠ notSuitableSentinel then
    jsTrim tailoredTextFromSheet
  else
    scoredBulletEntry.originalBulletText

/-! ## Stage-3 sorting

`selectedScoredBullets.sort((a, b) => parseFloat(b.RelevanceScore) - parseFloat(a.RelevanceScore))`
sorts descending by score; JavaScript `Array.prototype.sort` is stable, as is
`List.insertionSort`. -/

/-- Sort relation: descending relevance score. -/
def scoreDescRel (a b : ScoredRow) : Prop :=
  b.relevanceScore ≤ a.relevanceScore

instance : DecidableRel scoreDescRel :=
  fun a b => inferInstanceAs (Decidable (b.relevanceScore ≤ a.relevanceScore))

instance : IsTotal ScoredRow scoreDescRel :=
  ⟨fun a b => le_total b.relevanceScore a.relevanceScore⟩

instance : IsTrans ScoredRow scoreDescRel :=
  ⟨fun _ _ _ h1 h2 => le_trans h2 h1⟩

/-- Embedding of the stage-3 descending sort of qualifying rows. -/
def sortByScoreDesc (rows : List ScoredRow) : List ScoredRow :=
  List.insertionSort scoreDescRel rows

/-! ## The master resume record (output of `getMasterResumeData`) -/

/-- A named group of items (a `{name, items}` subsection of the PROJECTS or
TECHNICAL SKILLS & CERTIFICATES sections). -/
structure NamedGroup (α : Type) where
  name : String
  items : List α
deriving DecidableEq

/-- An EXPERIENCE item. -/
structure MasterJob where
  jobTitle : String
  company : String
  location : String
  startDate : String
  endDate : String
  responsibilities : List String
deriving DecidableEq

/-- A PROJECTS item (shape produced by `processAccumulatedSection`,
`MasterResumeData.gs` lines 502-512). -/
structure MasterProject where
  projectName : String
  organization : String
  role : String
  startDate : String
  endDate : String
  descriptionBullets : List String
  technologies : List String
  impact : String
  futureDevelopment : String
  githubLinks : List (String × String)
deriving DecidableEq

/-- A LEADERSHIP & UNIVERSITY INVOLVEMENT item. -/
structure MasterLead where
  organization : String
  role : String
  location : String
  startDate : String
  endDate : String
  description : String
  responsibilities : List String
deriving DecidableEq

/-- A TECHNICAL SKILLS & CERTIFICATES item: skills carry `{skill, details}`,
certificates `{name, issuer, issueDate}` (`MasterResumeData.gs` lines 493-498). -/
inductive TechItem where
  | skillItem (skill : String) (details : String)
  | certItem (name : String) (issuer : String) (issueDate : String)
deriving DecidableEq

/-- An EDUCATION item. -/
structure EducationItem where
  institution : String
  degree : String
  location : String
  startDate : String
  endDate : String
  gpa : String
  relevantCoursework : List String
deriving DecidableEq

/-- An HONORS & AWARDS item. -/
structure AwardItem where
  awardName : String
  details : String
  date : String
deriving DecidableEq

/-- The master resume record.  The source keeps a `sections` array and accesses
it with `sections.find(s => s.title === ...)`; the embedding carries one
optional field per canonical section title (`none` models an absent section). -/
structure MasterResume where
  fullName : String
  summary : String
  education : Option (List EducationItem)
  experience : Option (List MasterJob)
  projects : Option (List (NamedGroup MasterProject))
  techSkills : Option (List (NamedGroup TechItem))
  leadership : Option (List MasterLead)
  honors : Option (List AwardItem)
deriving DecidableEq

/-- A section of the final tailored resume object assembled by stage 3. -/
inductive FinalSection where
  | experience (items : List MasterJob)
  | projects (subsections : List (NamedGroup MasterProject))
  | leadership (items : List MasterLead)
  | techSkills (subsections : List (NamedGroup TechItem))
  | education (items : List EducationItem)
  | honors (items : List AwardItem)
deriving DecidableEq

/-- The `title` property of an assembled section. -/
def FinalSection.title : FinalSection → String
  | .experience _ => "EXPERIENCE"
  | .projects _ => "PROJECTS"
  | .leadership _ => "LEADERSHIP & UNIVERSITY INVOLVEMENT"
  | .techSkills _ => "TECHNICAL SKILLS & CERTIFICATES"
  | .education _ => "EDUCATION"
  | .honors _ => "HONORS & AWARDS"

/-! ## Stage 3: dynamic section assembly (`Main.gs`, `runStage3_BuildAndGenerateDocument`)

Each dynamic section iterates the master items, joins each item's scored rows by
`(Section, ItemIdentifier)`, filters by score threshold and selection flag,
sorts descending by score, takes the per-item cap, resolves each kept row's text
with `getBulletTextToUse`, and keeps the item only when at least one bullet
survives. -/

/-- Scored rows joined to an EXPERIENCE master item
(`Main.gs` line 719: `r.Section === "EXPERIENCE" && r.ItemIdentifier === masterJob.company`). -/
def experienceRowsForJob (allScoredBulletRows : List ScoredRow) (masterJob : MasterJob) :
    List ScoredRow :=
  allScoredBulletRows.filter
    (fun r => r.sectionTitle == "EXPERIENCE" && r.itemIdentifier == masterJob.company)

/-- Assembly of one EXPERIENCE item (`Main.gs` lines 718-739). -/
def assembleExperienceItem (allScoredBulletRows : List ScoredRow) (masterJob : MasterJob) :
    Option MasterJob :=
  let selectedScoredBullets :=
    sortByScoreDesc ((experienceRowsForJob allScoredBulletRows masterJob).filter stage3RowQualifies)
  if selectedScoredBullets.length > 0 then
    let includedBulletsText :=
      (selectedScoredBullets.take STAGE3_MAX_BULLETS_PER_JOB).map getBulletTextToUse
    if includedBulletsText.length > 0 then
      some { masterJob with responsibilities := includedBulletsText }
    else none
  else none

/-- Assembly of the EXPERIENCE section's item list (`Main.gs` lines 716-739). -/
def assembleExperienceItems (allScoredBulletRows : List ScoredRow)
    (masterExperienceItems : List MasterJob) : List MasterJob :=
  masterExperienceItems.filterMap (assembleExperienceItem allScoredBulletRows)

/-- Scored rows joined to a PROJECTS master item (`Main.gs` line 750). -/
def projectRowsForProject (allScoredBulletRows : List ScoredRow) (masterProject : MasterProject) :
    List ScoredRow :=
  allScoredBulletRows.filter
    (fun r => r.sectionTitle == "PROJECTS" && r.itemIdentifier == masterProject.projectName)

/-- Assembly of one PROJECTS item (`Main.gs` lines 749-769). -/
def assembleProjectItem (allScoredBulletRows : List ScoredRow) (masterProject : MasterProject) :
    Option MasterProject :=
  let selectedScoredBullets :=
    sortByScoreDesc ((projectRowsForProject allScoredBulletRows masterProject).filter stage3RowQualifies)
  if selectedScoredBullets.length > 0 then
    let includedBulletsText :=
      (selectedScoredBullets.take STAGE3_MAX_BULLETS_PER_PROJECT).map getBulletTextToUse
    if includedBulletsText.length > 0 then
      some { masterProject with descriptionBullets := includedBulletsText }
    else none
  else none

/-- Assembly of the PROJECTS subsections (`Main.gs` lines 747-774): a subsection
is kept when at least one of its projects survives; its name falls back to
`"General Projects"` when blank (`masterSubSection.name || "General Projects"`). -/
def assembleProjectSubsections (allScoredBulletRows : List ScoredRow)
    (masterSubsections : List (NamedGroup MasterProject)) : List (NamedGroup MasterProject) :=
  masterSubsections.filterMap (fun masterSubSection =>
    let tailoredItems := (masterSubSection.items).filterMap (assembleProjectItem allScoredBulletRows)
    if tailoredItems.length > 0 then
      some { name := if masterSubSection.name ≠ "" then masterSubSection.name
                     else "General Projects",
             items := tailoredItems }
    else none)

/-- The natural key of a LEADERSHIP master item
(`Main.gs` line 785: `masterItem.organization || masterItem.role`). -/
def leadershipIdentifier (masterItem : MasterLead) : String :=
  if masterItem.organization ≠ "" then masterItem.organization else masterItem.role

/-- Scored rows joined to a LEADERSHIP master item (`Main.gs` lines 786-787). -/
def leadershipRowsForItem (allScoredBulletRows : List ScoredRow) (masterItem : MasterLead) :
    List ScoredRow :=
  allScoredBulletRows.filter
    (fun r => r.sectionTitle == "LEADERSHIP & UNIVERSITY INVOLVEMENT" &&
              r.itemIdentifier == leadershipIdentifier masterItem)

/-- Assembly of one LEADERSHIP item (`Main.gs` lines 784-808); the per-item cap
`MAX_BULLETS_PER_LEADERSHIP_ITEM` is `STAGE3_MAX_BULLETS_PER_JOB` (line 793). -/
def assembleLeadershipItem (allScoredBulletRows : List ScoredRow) (masterItem : MasterLead) :
    Option MasterLead :=
  let selectedScoredBullets :=
    sortByScoreDesc ((leadershipRowsForItem allScoredBulletRows masterItem).filter stage3RowQualifies)
  if selectedScoredBullets.length > 0 then
    let includedBulletsText :=
      (selectedScoredBullets.take STAGE3_MAX_BULLETS_PER_JOB).map getBulletTextToUse
    if includedBulletsText.length > 0 then
      some { masterItem with responsibilities := includedBulletsText }
    else none
  else none

/-- Assembly of the LEADERSHIP section's item list (`Main.gs` lines 782-809). -/
def assembleLeadershipItems (allScoredBulletRows : List ScoredRow)
    (masterLeadershipItems : List MasterLead) : List MasterLead :=
  masterLeadershipItems.filterMap (assembleLeadershipItem allScoredBulletRows)

/-- Match of a master TECHNICAL SKILLS item against a sheet `ItemIdentifier`
(`Main.gs` lines 831-834): skills compare their trimmed `skill`, certificates
their trimmed `name`; a blank field is falsy and never matches. -/
def techItemMatchesIdentifier (ident : String) : TechItem → Bool
  | .skillItem sk _ => sk != "" && jsTrim sk == ident
  | .certItem nm _ _ => nm != "" && jsTrim nm == ident

/-- Search of the master TECHNICAL SKILLS subsections for a selected sheet item
(`Main.gs` lines 829-841): first matching item wins, returning its category name
and a copy of its structure. -/
def findTechInMaster (ident : String) :
    List (NamedGroup TechItem) → Option (String × TechItem)
  | [] => none
  | masterSub :: rest =>
    match masterSub.items.find? (techItemMatchesIdentifier ident) with
    | some foundItem => some (masterSub.name, foundItem)
    | none => findTechInMaster ident rest

/-- Category and item structure used for one selected skills row
(`Main.gs` lines 825-848): defaults `("Uncategorized", minimal skill structure
from OriginalBulletText)` when the identifier cannot be re-located in master. -/
def techCategoryAndStructure (masterTechSubs : Option (List (NamedGroup TechItem)))
    (selectedSheetItem : ScoredRow) : String × TechItem :=
  match masterTechSubs with
  | some subs =>
    match findTechInMaster selectedSheetItem.itemIdentifier subs with
    | some found => found
    | none => ("Uncategorized", .skillItem selectedSheetItem.originalBulletText "")
  | none => ("Uncategorized", .skillItem selectedSheetItem.originalBulletText "")

/-- Append an item to its category group, preserving first-occurrence insertion
order (the `skillsBySubCategoryMap` of `Main.gs` lines 850-854). -/
def insertIntoCategoryGroups (groups : List (NamedGroup TechItem)) (cat : String)
    (it : TechItem) : List (NamedGroup TechItem) :=
  match groups with
  | [] => [⟨cat, [it]⟩]
  | g :: rest =>
    if g.name = cat then ⟨g.name, g.items ++ [it]⟩ :: rest
    else g :: insertIntoCategoryGroups rest cat it

/-- The stage-3 selected TECHNICAL SKILLS rows (`Main.gs` lines 815-819). -/
def selectedTechRows (allScoredBulletRows : List ScoredRow) : List ScoredRow :=
  allScoredBulletRows.filter
    (fun r => r.sectionTitle == "TECHNICAL SKILLS & CERTIFICATES" && stage3RowQualifies r)

/-- Assembly of the TECHNICAL SKILLS & CERTIFICATES subsections
(`Main.gs` lines 821-857). -/
def assembleTechSubsections (masterTechSubs : Option (List (NamedGroup TechItem)))
    (allScoredBulletRows : List ScoredRow) : List (NamedGroup TechItem) :=
  let grouped := (selectedTechRows allScoredBulletRows).foldl
    (fun acc sel =>
      let found := techCategoryAndStructure masterTechSubs sel
      insertIntoCategoryGroups acc found.1 found.2) []
  grouped.filter (fun sub => sub.items.length > 0)

/-- The dynamically assembled sections, in the push order of
`runStage3_BuildAndGenerateDocument` (EXPERIENCE, PROJECTS, LEADERSHIP,
TECHNICAL SKILLS), each pushed only when non-empty. -/
def dynamicSections (master : MasterResume) (allScoredBulletRows : List ScoredRow) :
    List FinalSection :=
  let expItems := assembleExperienceItems allScoredBulletRows (master.experience.getD [])
  let expPart : List FinalSection :=
    if expItems.length > 0 then [.experience expItems] else []
  let projPart : List FinalSection :=
    match master.projects with
    | none => []
    | some masterSubs =>
      let subs := assembleProjectSubsections allScoredBulletRows masterSubs
      if subs.any (fun ss => ss.items.length > 0) then [.projects subs] else []
  let leadItems := assembleLeadershipItems allScoredBulletRows (master.leadership.getD [])
  let leadPart : List FinalSection :=
    if leadItems.length > 0 then [.leadership leadItems] else []
  let techPart : List FinalSection :=
    if (selectedTechRows allScoredBulletRows).length > 0 then
      let subs := assembleTechSubsections master.techSkills allScoredBulletRows
      if subs.length > 0 then [.techSkills subs] else []
    else []
  expPart ++ projPart ++ leadPart ++ techPart

/-! ## Stage 3: static fallback and final ordering (`Main.gs` lines 887-929) -/

/-- Lookup of a master section by canonical title, wrapped as a `FinalSection`
(embedding of `masterResumeObject.sections.find(s => s.title.toUpperCase() === sectionTitle.toUpperCase())`). -/
def masterSectionFor (master : MasterResume) (title : String) : Option FinalSection :=
  if title == "EDUCATION" then master.education.map .education
  else if title == "EXPERIENCE" then master.experience.map .experience
  else if title == "PROJECTS" then master.projects.map .projects
  else if title == "TECHNICAL SKILLS & CERTIFICATES" then master.techSkills.map .techSkills
  else if title == "LEADERSHIP & UNIVERSITY INVOLVEMENT" then master.leadership.map .leadership
  else if title == "HONORS & AWARDS" then master.honors.map .honors
  else none

/-- Embedding of the `isStaticSectionEffectivelyEmpty` checks of `Main.gs`
lines 896-906: an items section is empty when its item list is, a subsections
section when every subsection's item list is. -/
def sectionEffectivelyEmpty : FinalSection → Bool
  | .experience items => items.isEmpty
  | .leadership items => items.isEmpty
  | .education items => items.isEmpty
  | .honors items => items.isEmpty
  | .projects subs => subs.all (fun ss => ss.items.isEmpty)
  | .techSkills subs => subs.all (fun ss => ss.items.isEmpty)

/-- The `desiredFinalSectionOrder` list of `Main.gs` line 890. -/
def desiredFinalSectionOrder : List String :=
  ["EDUCATION", "EXPERIENCE", "PROJECTS", "TECHNICAL SKILLS & CERTIFICATES",
   "LEADERSHIP & UNIVERSITY INVOLVEMENT", "HONORS & AWARDS"]

/-- The static-fallback pass (`Main.gs` lines 892-918): every title of the
desired order that was not produced dynamically is filled verbatim (deep copy)
from the master record, unless effectively empty or absent. -/
def staticFallbackSections (master : MasterResume) (processedDynamicSectionTitles : List String) :
    List FinalSection :=
  desiredFinalSectionOrder.filterMap (fun sectionTitle =>
    if processedDynamicSectionTitles.contains (jsToUpper sectionTitle) then none
    else
      match masterSectionFor master sectionTitle with
      | none => none
      | some staticSectionData =>
        if sectionEffectivelyEmpty staticSectionData then none
        else some staticSectionData)

/-- Sort index of a section title (`desiredFinalSectionOrder.indexOf`); a missing
title sorts to the end, as the comparator of `Main.gs` lines 921-929 sends
`indexOf === -1` entries to the end (`List.indexOf` returns the list length for
missing entries, which is already past every present index). -/
def sectionOrderIndex (s : FinalSection) : Nat :=
  desiredFinalSectionOrder.indexOf (jsToUpper s.title)

/-- Sort relation of the final section ordering pass. -/
def sectionOrderRel (a b : FinalSection) : Prop :=
  sectionOrderIndex a ≤ sectionOrderIndex b

instance : DecidableRel sectionOrderRel :=
  fun a b => inferInstanceAs (Decidable (sectionOrderIndex a ≤ sectionOrderIndex b))

instance : IsTotal FinalSection sectionOrderRel :=
  ⟨fun a b => Nat.le_total (sectionOrderIndex a) (sectionOrderIndex b)⟩

instance : IsTrans FinalSection sectionOrderRel :=
  ⟨fun _ _ _ h1 h2 => Nat.le_trans h1 h2⟩

/-- The `sections` list of the final tailored resume object produced by
`runStage3_BuildAndGenerateDocument` (`Main.gs` lines 710-929): dynamic
assembly, then static fallback, then a stable sort into the desired order.
The AI-summary regeneration and the document rendering that follow do not
change this list. -/
def runStage3Sections (master : MasterResume) (allScoredBulletRows : List ScoredRow) :
    List FinalSection :=
  let dyn := dynamicSections master allScoredBulletRows
  let processedDynamicSectionTitles := dyn.map (fun s => jsToUpper s.title)
  List.insertionSort sectionOrderRel
    (dyn ++ staticFallbackSections master processedDynamicSectionTitles)

/-- The bullet texts carried by the items of one assembled section
(`responsibilities` of jobs and leadership roles, `descriptionBullets` of
projects; education, honors and skills items carry no bullet sequences). -/
def sectionBullets : FinalSection → List String
  | .experience items => items.flatMap (fun i => i.responsibilities)
  | .projects subs => subs.flatMap (fun ss => ss.items.flatMap (fun i => i.descriptionBullets))
  | .leadership items => items.flatMap (fun i => i.responsibilities)
  | .techSkills _ => []
  | .education _ => []
  | .honors _ => []

/-! ## Stage 1: scoring (`Main.gs`, `runStage1_AnalyzeAndScore`, EXPERIENCE block lines 249-279)

`matchResumeSection` (in `TailoringLogic.gs`) either returns a validated object
`{relevanceScore: number, matchingKeywords: string[], justification: string}` or
an error object `{error, rawOutput}`; the LLM round trip behind it is an oracle
`matchOracle : String → MatchResult`. -/

/-- Result of `matchResumeSection` as consumed by stage 1. -/
inductive MatchResult where
  | ok (relevanceScore : ℚ) (matchingKeywords : List String) (justification : String)
  | err (error : String) (rawOutput : String)
deriving DecidableEq

/-- Embedding of `score.toFixed(2)` followed by the stage-3 `parseFloat`
read-back: rounding to the nearest multiple of `1/100` (half towards positive
infinity), computed on numerator and denominator so that it evaluates by kernel
reduction.  For `q = n/d` it is `mkRat ((200*n + d).fdiv (2*d)) 100 = ⌊100*q + 1/2⌋ / 100`. -/
def toFixed2 (q : ℚ) : ℚ :=
  mkRat ((200 * q.num + (q.den : Int)).fdiv (2 * (q.den : Int))) 100

/-- Embedding of the per-bullet row construction of the stage-1 EXPERIENCE loop
(`Main.gs` lines 257-273): defaults `score = 0.0`, `keywords = []`,
`justification = "Match error/no numeric score."`, overridden from a valid match
result or from an error object with a truthy `error` field. -/
def mkExperienceScoredRow (jobIndex : Nat) (job : MasterJob) (bulletIndex : Nat)
    (originalBullet : String) (matchResult : MatchResult) : ScoredRow :=
  let outcome : ℚ × List String × String :=
    match matchResult with
    | .ok s k j => (s, k, if j ≠ "" then j else "No justification by AI.")
    | .err e raw =>
      (0, [], if e ≠ "" then "Error: " ++ e ++ ". Raw: " ++ raw
              else "Match error/no numeric score.")
  { uniqueId := "EXP_J" ++ toString jobIndex ++ "_B" ++ toString bulletIndex
    sectionTitle := "EXPERIENCE"
    itemIdentifier := if job.company ≠ "" then job.company
                      else "ExperienceItem" ++ toString jobIndex
    originalBulletText := originalBullet
    relevanceScore := toFixed2 outcome.1
    matchingKeywords := joinSep "; " outcome.2.1
    justification := outcome.2.2
    selectToTailor := ""
    tailoredBulletText := "" }

/-- Embedding of the stage-1 EXPERIENCE scoring loop (`Main.gs` lines 249-279):
one row per non-blank bullet of each job, in order; blank bullets are skipped
(`if (!originalBullet || !originalBullet.trim()) return`). -/
def runStage1ScoreExperienceBullets (matchOracle : String → MatchResult)
    (experienceItems : List MasterJob) : List ScoredRow :=
  (experienceItems.enum).flatMap (fun ji =>
    (ji.2.responsibilities.enum).filterMap (fun bi =>
      if bi.2 = "" ∨ jsTrim bi.2 = "" then none
      else some (mkExperienceScoredRow ji.1 ji.2 bi.1 bi.2 (matchOracle bi.2))))

/-! ## Stage 2: tailoring selected rows (`Main.gs`, `runStage2_TailorSelectedBullets`, lines 545-575)

`tailorBulletPoint` is an oracle `tailorOracle : String → String` of the
original bullet text (the jdAnalysis and target role arguments are fixed for the
whole run). -/

/-- Embedding of one iteration of the stage-2 row loop (`Main.gs` lines 545-569):
rows whose selection flag is not truthy are untouched; selected rows get their
`TailoredBulletText(Stage2)` cell overwritten with the trimmed tailored output,
or with a `TAILOR_FAIL/SKIP:` marker when the output is falsy, an `ERROR:`
string, or the "not suitable" sentinel. -/
def processStage2Row (tailorOracle : String → String) (rowData : ScoredRow) : ScoredRow :=
  if isSelectedFlag rowData.selectToTailor then
    let tailoredOutput := tailorOracle rowData.originalBulletText
    if tailoredOutput ≠ "" ∧ strStartsWith tailoredOutput "ERROR:" = false ∧
        jsToLower tailoredOutput ≠ notSuitableSentinel then
      { rowData with tailoredBulletText := jsTrim tailoredOutput }
    else
      { rowData with tailoredBulletText := "TAILOR_FAIL/SKIP: " ++ tailoredOutput }
  else rowData

/-- Embedding of the stage-2 pass over all data rows followed by the batch
write-back (`Main.gs` lines 545-581): the resulting sheet contents. -/
def runStage2TailorSelectedBullets (tailorOracle : String → String)
    (scoringSheetDataRows : List ScoredRow) : List ScoredRow :=
  scoringSheetDataRows.map (processStage2Row tailorOracle)

/-! ## BulletTailor response parsing (`TailoringLogic.gs`, `tailorBulletPoint`, lines 205-228)

`JSON.parse` is a host capability, embedded as an oracle
`jsonParse : String → Option JsValue` (`none` models a thrown `SyntaxError`).
`JsValue` is the shape of a parsed JSON document. -/

/-- A parsed JSON document. -/
inductive JsValue where
  | nullVal
  | boolVal (b : Bool)
  | numVal (q : ℚ)
  | strVal (s : String)
  | arrVal (elems : List JsValue)
  | objVal (fields : List (String × JsValue))

/-- Embedding of the code-fence stripping applied to `potentialJson`
(`TailoringLogic.gs` lines 210-213): drop a leading ```` ```json ```` or
```` ``` ```` marker (then trim), drop a trailing ```` ``` ```` marker (then
trim). -/
def stripCodeFences (s : String) : String :=
  let afterLeft :=
    if strStartsWith s "```json" then jsTrim (strDropLeft s 7)
    else if strStartsWith s "```" then jsTrim (strDropLeft s 3)
    else s
  if strEndsWith afterLeft "```" then jsTrim (strDropRight afterLeft 3)
  else afterLeft

/-- Embedding of the truthiness test
`parsedResponse && parsedResponse.rewritten_bullet && typeof parsedResponse.rewritten_bullet === 'string'`
(`TailoringLogic.gs` line 216): the parsed document must be an object whose
`rewritten_bullet` property is a non-empty string. -/
def jsonRewrittenBullet : JsValue → Option String
  | .objVal fields =>
    match fields.find? (fun f => f.1 == "rewritten_bullet") with
    | some f =>
      match f.2 with
      | .strVal s => if s ≠ "" then some s else none
      | _ => none
    | none => none
  | _ => none

/-- Embedding of the non-error response handling of `tailorBulletPoint`
(`TailoringLogic.gs` lines 205-228): trim the response, strip code fences into
`potentialJson`, attempt `JSON.parse`; on success with a truthy string
`rewritten_bullet` return it trimmed, otherwise return `tailoredText` — the
trimmed response from before the fence stripping. -/
def parseTailorResponseBody (jsonParse : String → Option JsValue)
    (groqResponseString : String) : String :=
  let tailoredText := jsTrim groqResponseString
  let potentialJson := stripCodeFences tailoredText
  match jsonParse potentialJson with
  | some parsedResponse =>
    match jsonRewrittenBullet parsedResponse with
    | some rb => jsTrim rb
    | none => tailoredText
  | none => tailoredText

/-! ## Concrete fixtures used by witnesses and counterexamples -/

/-- A sample EXPERIENCE master item. -/
def fixtureJob : MasterJob :=
  { jobTitle := "Engineer", company := "Acme Corp", location := "NYC",
    startDate := "2020", endDate := "2022",
    responsibilities := ["Built X", "Led Y"] }

/-- A sample EXPERIENCE master item with six bullets (one more than the stage-3 cap). -/
def fixtureJobSix : MasterJob :=
  { jobTitle := "Engineer", company := "Acme Corp", location := "NYC",
    startDate := "2020", endDate := "2022",
    responsibilities := ["B one", "B two", "B three", "B four", "B five", "B six"] }

/-- A sample master resume whose only populated section is EXPERIENCE. -/
def fixtureMaster : MasterResume :=
  { fullName := "Jane Roe", summary := "Seasoned engineer.", education := none,
    experience := some [fixtureJob], projects := none, techSkills := none,
    leadership := none, honors := none }

/-- A sample master resume carrying the six-bullet job. -/
def fixtureMasterSix : MasterResume :=
  { fullName := "Jane Roe", summary := "Seasoned engineer.", education := none,
    experience := some [fixtureJobSix], projects := none, techSkills := none,
    leadership := none, honors := none }

/-- A scored row for `fixtureJob`'s first bullet whose selection flag is blank
(not selected), with a score far above the inclusion threshold. -/
def unselectedRow : ScoredRow :=
  { uniqueId := "EXP_J0_B0", sectionTitle := "EXPERIENCE", itemIdentifier := "Acme Corp",
    originalBulletText := "Built X", relevanceScore := mkRat 9 10,
    matchingKeywords := "", justification := "strong match", selectToTailor := "",
    tailoredBulletText := "" }

/-- The same row with the selection flag set to a truthy spelling. -/
def selectedRow : ScoredRow :=
  { unselectedRow with selectToTailor := " yes " }

/-! ## Accessors used to state section-level properties -/

/-- The EXPERIENCE items of an assembled section (empty for other sections). -/
def sectionExperienceItems : FinalSection → List MasterJob
  | .experience items => items
  | _ => []

/-- The LEADERSHIP items of an assembled section (empty for other sections). -/
def sectionLeadershipItems : FinalSection → List MasterLead
  | .leadership items => items
  | _ => []

/-- The PROJECTS items of an assembled section, across its subsections
(empty for other sections). -/
def sectionProjectItems : FinalSection → List MasterProject
  | .projects subs => subs.flatMap (fun ss => ss.items)
  | _ => []

/-! ## Basic lemmas about the embedded string primitives -/

theorem dropWhile_rdropWhile_of_dropWhile_eq (p : Char → Bool) (m : List Char)
    (hm : m.dropWhile p = m) : (m.rdropWhile p).dropWhile p = m.rdropWhile p := by
  rcases List.rdropWhile_prefix p m with ⟨r, hr⟩
  cases ht : m.rdropWhile p with
  | nil => rfl
  | cons a t' =>
    rw [List.dropWhile_cons]
    have h0 : 0 < m.length := by
      rw [← hr, ht]
      simp
    have hnp := (List.dropWhile_eq_self_iff).mp hm h0
    have hget : m.get ⟨0, h0⟩ = a := by
      have : m = a :: (t' ++ r) := by rw [← hr, ht]; rfl
      simp [this]
    rw [hget] at hnp
    simp [hnp]

theorem trimChars_idem (l : List Char) : trimChars (trimChars l) = trimChars l := by
  unfold trimChars
  rw [dropWhile_rdropWhile_of_dropWhile_eq _ _ (List.dropWhile_idempotent _ _),
    List.rdropWhile_idempotent]

theorem jsTrim_idem (s : String) : jsTrim (jsTrim s) = jsTrim s :=
  congrArg String.mk (trimChars_idem s.data)

theorem jsTrim_empty : jsTrim "" = "" := rfl

theorem jsTrim_of_empty {s : String} (h : s = "") : jsTrim s = "" := by
  rw [h]; rfl

/-! ## C5: dedicated bullet columns -/

theorem collectDedicatedBullets_eq_filter (cells : List String) :
    collectDedicatedBullets cells = (cells.map jsTrim).filter (fun v => v ≠ "") := by
  induction cells with
  | nil => rfl
  | cons cell rest ih =>
    by_cases h : jsTrim cell = ""
    · simp [collectDedicatedBullets, h, ih]
    · simp [collectDedicatedBullets, h, jsTrim_idem, ih]

/-- C5: normalizing a row's `N = NUM_DEDICATED_BULLET_COLUMNS` dedicated bullet
cells yields exactly the non-empty trimmed cell values, in original column
order, blank slots skipped; consequently every bullet-sequence element is
non-empty trimmed text. -/
theorem dedicatedBulletColumns_roundTrip (cells : List String)
    (_hN : cells.length = NUM_DEDICATED_BULLET_COLUMNS) :
    collectDedicatedBullets cells = (cells.map jsTrim).filter (fun v => v ≠ "") ∧
    ∀ b ∈ collectDedicatedBullets cells, b ≠ "" ∧ jsTrim b = b := by
  refine ⟨collectDedicatedBullets_eq_filter cells, ?_⟩
  intro b hb
  rw [collectDedicatedBullets_eq_filter cells] at hb
  have hmem := List.mem_of_mem_filter hb
  have hne : b ≠ "" := by
    have := List.of_mem_filter hb
    simpa using this
  rcases List.mem_map.mp hmem with ⟨cell, _, hcell⟩
  exact ⟨hne, by rw [← hcell, jsTrim_idem]⟩

/-- Witness for C5 at a concrete three-column row with a blank middle slot. -/
theorem dedicatedBulletColumns_roundTrip_witness :
    (["Built X", "  ", "Led Y"] : List String).length = NUM_DEDICATED_BULLET_COLUMNS ∧
    collectDedicatedBullets ["Built X", "  ", "Led Y"] =
      ((["Built X", "  ", "Led Y"] : List String).map jsTrim).filter (fun v => v ≠ "") ∧
    collectDedicatedBullets ["Built X", "  ", "Led Y"] = ["Built X", "Led Y"] :=
  ⟨by decide,
   (dedicatedBulletColumns_roundTrip ["Built X", "  ", "Led Y"] (by decide)).1,
   by decide⟩

/-! ## C7: date formatting -/

/-- C7 (amended): case characterization of `formatDateFromSheet` for every date
parser behavior: a blank cell yields `"Present"` exactly when the field is an
end date (else the empty string); a cell whose trimmed text is `"present"`
case-insensitively is normalized to `"Present"`; an unparseable string comes
back trimmed (not verbatim); a bare 4-digit year or an `"Month YYYY"`-shaped
string comes back unchanged (trimmed) even when parseable; any other parseable
value is formatted as `"Month YYYY"` from the parsed month and year.  The
function is total by construction. -/
theorem formatDateFromSheet_spec (parseDate : String → Option (Nat × Int))
    (cell : String) (isEnd : Bool) :
    (jsTrim cell = "" →
      formatDateFromSheet parseDate cell isEnd = (if isEnd then "Present" else "")) ∧
    (jsTrim cell ≠ "" → jsToUpper (jsTrim cell) = "PRESENT" →
      formatDateFromSheet parseDate cell isEnd = "Present") ∧
    (jsTrim cell ≠ "" → jsToUpper (jsTrim cell) ≠ "PRESENT" →
      parseDate (jsTrim cell) = none →
      formatDateFromSheet parseDate cell isEnd = jsTrim cell) ∧
    (∀ m y, jsTrim cell ≠ "" → jsToUpper (jsTrim cell) ≠ "PRESENT" →
      parseDate (jsTrim cell) = some (m, y) →
      ((isBareYearShape (jsTrim cell) = true ∨ isMonthYearShape (jsTrim cell) = true) →
        formatDateFromSheet parseDate cell isEnd = jsTrim cell) ∧
      (isBareYearShape (jsTrim cell) = false → isMonthYearShape (jsTrim cell) = false →
        formatDateFromSheet parseDate cell isEnd =
          (monthNames.getD m "undefined") ++ " " ++ toString y)) := by
  unfold formatDateFromSheet
  refine ⟨?_, ?_, ?_, ?_⟩
  · intro h; simp [h]
  · intro h hp; simp [h, hp]
  · intro h hp hn; simp [h, hp, hn]
  · intro m y h hp hs
    constructor
    · rintro (hy | hmy)
      · simp [h, hp, hs, hy]
      · by_cases hy2 : isBareYearShape (jsTrim cell) = true
        · simp [h, hp, hs, hy2]
        · simp [h, hp, hs, hy2, hmy]
    · intro hy hmy
      simp [h, hp, hs, hy, hmy]

/-- Witness for C7 at a parseable concrete date and a blank end-date cell. -/
theorem formatDateFromSheet_spec_witness :
    formatDateFromSheet (fun s => if s = "2020-03-13" then some (2, 2020) else none)
      " 2020-03-13 " false = "March 2020" ∧
    formatDateFromSheet (fun _ => none) "   " true = "Present" := by
  constructor
  · have h := (formatDateFromSheet_spec
      (fun s => if s = "2020-03-13" then some (2, 2020) else none) " 2020-03-13 " false).2.2.2
        2 2020 (by decide) (by decide) (by decide)
    rw [h.2 (by decide) (by decide)]
    decide
  · have h := (formatDateFromSheet_spec (fun _ => none) "   " true).1 (by decide)
    rw [h]
    rfl

/-- Counterexample for C7 as stated: `"PRESENT"` is not parseable as a calendar
date (the oracle models `new Date("PRESENT")` being invalid), yet the function
does not return it verbatim — it normalizes it to `"Present"`. -/
theorem formatDateFromSheet_verbatim_counterexample :
    formatDateFromSheet (fun _ => none) "PRESENT" false = "Present" ∧
    "Present" ≠ "PRESENT" := by
  constructor
  · rfl
  · decide

/-! ## C4: tailored-text resolution -/

/-- C4 (amended): the stage-3 assembler resolves the final bullet text to the
trimmed `tailoredText` exactly when that field is non-blank, its UPPERCASE form
does not start with `"TAILOR_FAIL"` (the marker check is case-insensitive), and
it is not the "not suitable" sentinel (case-insensitive); in every other case it
uses `originalText`. -/
theorem getBulletTextToUse_spec (r : ScoredRow) :
    (jsTrim r.tailoredBulletText ≠ "" ∧
        strStartsWith (jsToUpper r.tailoredBulletText) "TAILOR_FAIL" = false ∧
        jsToLower r.tailoredBulletText ≠ notSuitableSentinel →
      getBulletTextToUse r = jsTrim r.tailoredBulletText) ∧
    (jsTrim r.tailoredBulletText = "" ∨
        strStartsWith (jsToUpper r.tailoredBulletText) "TAILOR_FAIL" = true ∨
        jsToLower r.tailoredBulletText = notSuitableSentinel →
      getBulletTextToUse r = r.originalBulletText) := by
  constructor
  · rintro ⟨h1, h2, h3⟩
    have h0 : r.tailoredBulletText ≠ "" := by
      intro he
      exact h1 (jsTrim_of_empty he)
    simp [getBulletTextToUse, h0, h1, h2, h3]
  · intro h
    unfold getBulletTextToUse
    rw [if_neg]
    rintro ⟨_, hg1, hg2, hg3⟩
    rcases h with h | h | h
    · exact hg1 h
    · rw [h] at hg2; cases hg2
    · exact hg3 h

/-- Witness for C4 at a concrete row with usable, untrimmed tailored text. -/
theorem getBulletTextToUse_spec_witness :
    getBulletTextToUse { unselectedRow with tailoredBulletText := "Better bullet. " } =
      "Better bullet." := by
  have h := (getBulletTextToUse_spec
    { unselectedRow with tailoredBulletText := "Better bullet. " }).1
    ⟨by decide, by decide, by decide⟩
  rw [h]
  decide

/-- Counterexample for C4 as stated: a tailored text that is non-blank, is not
the sentinel, and does not begin with the literal `"TAILOR_FAIL"` (it begins
with lowercase `"tailor_fail"`), for which the claim requires the tailored text
to be used — yet the code's case-insensitive marker check rejects it and falls
back to the original text. -/
theorem getBulletTextToUse_marker_case_counterexample :
    jsTrim ({ unselectedRow with tailoredBulletText := "tailor_fail test" } :
        ScoredRow).tailoredBulletText ≠ "" ∧
    strStartsWith ({ unselectedRow with tailoredBulletText := "tailor_fail test" } :
        ScoredRow).tailoredBulletText "TAILOR_FAIL" = false ∧
    jsToLower ({ unselectedRow with tailoredBulletText := "tailor_fail test" } :
        ScoredRow).tailoredBulletText ≠ notSuitableSentinel ∧
    getBulletTextToUse { unselectedRow with tailoredBulletText := "tailor_fail test" } =
      "Built X" ∧
    ("Built X" : String) ≠ jsTrim "tailor_fail test" := by
  refine ⟨by decide, by decide, by decide, ?_, by decide⟩
  rfl

/-! ## C6: tailoring response parsing -/

/-- C6 (amended): for every non-error model response, `tailorBulletPoint` trims
the response, strips leading/trailing code-fence markers from a working copy,
attempts `JSON.parse` on that copy first, and returns the `rewritten_bullet`
string (trimmed) when the parse yields an object with that non-empty string
property; in every other case — parse failure, or a parsed value without a
usable `rewritten_bullet` — it falls back to the full trimmed response from
before the fence stripping, so the fallback can still carry code-fence
markers. -/
theorem parseTailorResponseBody_spec (jsonParse : String → Option JsValue)
    (groqResponseString : String) :
    (∀ v, jsonParse (stripCodeFences (jsTrim groqResponseString)) = some v →
      (∀ rb, jsonRewrittenBullet v = some rb →
        parseTailorResponseBody jsonParse groqResponseString = jsTrim rb) ∧
      (jsonRewrittenBullet v = none →
        parseTailorResponseBody jsonParse groqResponseString = jsTrim groqResponseString)) ∧
    (jsonParse (stripCodeFences (jsTrim groqResponseString)) = none →
      parseTailorResponseBody jsonParse groqResponseString = jsTrim groqResponseString) := by
  unfold parseTailorResponseBody
  dsimp only
  constructor
  · intro v hv
    constructor
    · intro rb hrb
      rw [hv]
      dsimp only
      rw [hrb]
    · intro hrb
      rw [hv]
      dsimp only
      rw [hrb]
  · intro hn
    rw [hn]

/-- Witness for C6 at a concrete fenced JSON-envelope response; the oracle
returns the parsed document of the JSON body and fails on everything else. -/
theorem parseTailorResponseBody_spec_witness :
    parseTailorResponseBody
      (fun s => if s = "\x7b\"rewritten_bullet\": \"Shipped the feature.\"\x7d" then
          some (JsValue.objVal [("rewritten_bullet", JsValue.strVal "Shipped the feature.")])
        else none)
      "```json\n\x7b\"rewritten_bullet\": \"Shipped the feature.\"\x7d\n```" =
      "Shipped the feature." := by
  have h := (parseTailorResponseBody_spec
    (fun s => if s = "\x7b\"rewritten_bullet\": \"Shipped the feature.\"\x7d" then
        some (JsValue.objVal [("rewritten_bullet", JsValue.strVal "Shipped the feature.")])
      else none)
    "```json\n\x7b\"rewritten_bullet\": \"Shipped the feature.\"\x7d\n```").1
    (JsValue.objVal [("rewritten_bullet", JsValue.strVal "Shipped the feature.")])
    (by rfl)
  rw [h.1 "Shipped the feature." (by rfl)]
  rfl

/-- Counterexample for C6 as stated: a plain-text answer wrapped in code fences.
The fence-stripped copy `"Improved and delivered."` is not valid JSON, so the
oracle (like `JSON.parse`) fails on it, and the fallback returns the trimmed
response WITH its code-fence markers — not the fence-stripped text the claim
requires. -/
theorem parseTailorResponseBody_fences_counterexample :
    parseTailorResponseBody (fun _ => none) "```\nImproved and delivered.\n```" =
      "```\nImproved and delivered.\n```" ∧
    stripCodeFences (jsTrim "```\nImproved and delivered.\n```") =
      "Improved and delivered." ∧
    strStartsWith
      (parseTailorResponseBody (fun _ => none) "```\nImproved and delivered.\n```")
      "```" = true := by
  refine ⟨rfl, rfl, ?_⟩
  rfl

/-! ## C10: stage-2 frame preservation -/

/-- C10: stage 2 is a frame-preserving partial update of the scoring table: the
output has one row per input row, in order; a row whose selection flag is not
one of the truthy spellings is written back entirely unchanged; and a selected
row keeps every column except `TailoredBulletText(Stage2)` at its prior
value. -/
theorem stage2_frame_preservation (tailorOracle : String → String)
    (rows : List ScoredRow) :
    (runStage2TailorSelectedBullets tailorOracle rows).length = rows.length ∧
    ∀ i (h : i < rows.length)
      (h2 : i < (runStage2TailorSelectedBullets tailorOracle rows).length),
      (isSelectedFlag (rows.get ⟨i, h⟩).selectToTailor = false →
        (runStage2TailorSelectedBullets tailorOracle rows).get ⟨i, h2⟩ = rows.get ⟨i, h⟩) ∧
      (isSelectedFlag (rows.get ⟨i, h⟩).selectToTailor = true →
        ((runStage2TailorSelectedBullets tailorOracle rows).get ⟨i, h2⟩).uniqueId =
            (rows.get ⟨i, h⟩).uniqueId ∧
        ((runStage2TailorSelectedBullets tailorOracle rows).get ⟨i, h2⟩).sectionTitle =
            (rows.get ⟨i, h⟩).sectionTitle ∧
        ((runStage2TailorSelectedBullets tailorOracle rows).get ⟨i, h2⟩).itemIdentifier =
            (rows.get ⟨i, h⟩).itemIdentifier ∧
        ((runStage2TailorSelectedBullets tailorOracle rows).get ⟨i, h2⟩).originalBulletText =
            (rows.get ⟨i, h⟩).originalBulletText ∧
        ((runStage2TailorSelectedBullets tailorOracle rows).get ⟨i, h2⟩).relevanceScore =
            (rows.get ⟨i, h⟩).relevanceScore ∧
        ((runStage2TailorSelectedBullets tailorOracle rows).get ⟨i, h2⟩).matchingKeywords =
            (rows.get ⟨i, h⟩).matchingKeywords ∧
        ((runStage2TailorSelectedBullets tailorOracle rows).get ⟨i, h2⟩).justification =
            (rows.get ⟨i, h⟩).justification ∧
        ((runStage2TailorSelectedBullets tailorOracle rows).get ⟨i, h2⟩).selectToTailor =
            (rows.get ⟨i, h⟩).selectToTailor) := by
  refine ⟨by simp [runStage2TailorSelectedBullets], ?_⟩
  intro i h h2
  have hget : (runStage2TailorSelectedBullets tailorOracle rows).get ⟨i, h2⟩ =
      processStage2Row tailorOracle (rows.get ⟨i, h⟩) := by
    simp [runStage2TailorSelectedBullets]
  rw [hget]
  constructor
  · intro hflag
    unfold processStage2Row
    rw [if_neg (by exact fun hc => absurd (hflag.symm.trans hc) Bool.false_ne_true)]
  · intro hflag
    unfold processStage2Row
    rw [if_pos (by exact hflag)]
    by_cases hc : tailorOracle (rows.get ⟨i, h⟩).originalBulletText ≠ "" ∧
        strStartsWith (tailorOracle (rows.get ⟨i, h⟩).originalBulletText) "ERROR:" = false ∧
        jsToLower (tailorOracle (rows.get ⟨i, h⟩).originalBulletText) ≠ notSuitableSentinel
    · rw [if_pos hc]
      exact ⟨rfl, rfl, rfl, rfl, rfl, rfl, rfl, rfl⟩
    · rw [if_neg hc]
      exact ⟨rfl, rfl, rfl, rfl, rfl, rfl, rfl, rfl⟩

/-- Witness for C10 at a concrete two-row table: the unselected first row is
written back unchanged and the selected second row keeps its original text. -/
theorem stage2_frame_preservation_witness :
    ((runStage2TailorSelectedBullets (fun _ => "ERROR: API down")
        [unselectedRow, selectedRow]).get
      ⟨0, by decide⟩ = unselectedRow) ∧
    ((runStage2TailorSelectedBullets (fun _ => "ERROR: API down")
        [unselectedRow, selectedRow]).get
      ⟨1, by decide⟩).originalBulletText = selectedRow.originalBulletText := by
  have h := (stage2_frame_preservation (fun _ => "ERROR: API down")
    [unselectedRow, selectedRow]).2
  constructor
  · exact (h 0 (by decide) (by decide)).1 (by decide)
  · exact ((h 1 (by decide) (by decide)).2 (by decide)).2.2.2.1

/-! ## C9: stage-1 error rows and batch continuation -/

theorem length_filterMap_blankSkip (f : Nat × String → ScoredRow) (n : Nat)
    (l : List String) :
    ((l.enumFrom n).filterMap (fun bi =>
        if bi.2 = "" ∨ jsTrim bi.2 = "" then none else some (f bi))).length =
      (l.filter (fun b => ¬(b = "" ∨ jsTrim b = ""))).length := by
  induction l generalizing n with
  | nil => rfl
  | cons b rest ih =>
    by_cases hb : b = "" ∨ jsTrim b = ""
    · simp only [List.enumFrom_cons, List.filterMap_cons, if_pos hb, List.filter_cons]
      rw [if_neg (fun hdec => (of_decide_eq_true hdec) hb)]
      exact ih (n + 1)
    · simp only [List.enumFrom_cons, List.filterMap_cons, if_neg hb, List.filter_cons]
      rw [if_pos (by rw [decide_eq_true_eq]; exact hb)]
      simp only [List.length_cons]
      rw [ih (n + 1)]

/-- C9: stage 1 records one row per non-blank bullet regardless of the scoring
outcomes — the row count does not depend on the oracle, every non-blank bullet's
row (including rows for failed scorings) is present, and a failed scoring with a
truthy error message produces a row with relevance score `0` (written `"0.00"`)
whose justification embeds the error and raw output. -/
theorem stage1_records_error_rows_and_continues (matchOracle : String → MatchResult)
    (jobs : List MasterJob) :
    (runStage1ScoreExperienceBullets matchOracle jobs).length =
      (jobs.map (fun j =>
        (j.responsibilities.filter (fun b => ¬(b = "" ∨ jsTrim b = ""))).length)).sum ∧
    (∀ jobIndex job, (jobIndex, job) ∈ jobs.enum →
      ∀ bulletIndex b, (bulletIndex, b) ∈ job.responsibilities.enum →
        ¬(b = "" ∨ jsTrim b = "") →
        mkExperienceScoredRow jobIndex job bulletIndex b (matchOracle b) ∈
          runStage1ScoreExperienceBullets matchOracle jobs) ∧
    (∀ jobIndex job bulletIndex b e raw, matchOracle b = .err e raw → e ≠ "" →
      (mkExperienceScoredRow jobIndex job bulletIndex b (matchOracle b)).relevanceScore = 0 ∧
      (mkExperienceScoredRow jobIndex job bulletIndex b (matchOracle b)).justification =
        "Error: " ++ e ++ ". Raw: " ++ raw) := by
  refine ⟨?_, ?_, ?_⟩
  · unfold runStage1ScoreExperienceBullets
    rw [List.length_flatMap]
    simp only [Function.comp_def]
    have hmap : jobs.enum.map (fun ji =>
        ((ji.2.responsibilities.enum).filterMap (fun bi =>
          if bi.2 = "" ∨ jsTrim bi.2 = "" then none
          else some (mkExperienceScoredRow ji.1 ji.2 bi.1 bi.2 (matchOracle bi.2)))).length) =
        jobs.enum.map (fun ji =>
          (ji.2.responsibilities.filter (fun b => ¬(b = "" ∨ jsTrim b = ""))).length) := by
      apply List.map_congr_left
      intro ji _
      exact length_filterMap_blankSkip _ 0 ji.2.responsibilities
    rw [hmap]
    have : jobs.enum.map (fun ji =>
        (ji.2.responsibilities.filter (fun b => ¬(b = "" ∨ jsTrim b = ""))).length) =
        (jobs.enum.map Prod.snd).map
          (fun j => (j.responsibilities.filter (fun b => ¬(b = "" ∨ jsTrim b = ""))).length) := by
      rw [List.map_map]
      rfl
    rw [this, List.enum_map_snd]
  · intro jobIndex job hjob bulletIndex b hb hcond
    unfold runStage1ScoreExperienceBullets
    refine List.mem_flatMap.mpr ⟨(jobIndex, job), hjob, ?_⟩
    exact List.mem_filterMap.mpr ⟨(bulletIndex, b), hb, by rw [if_neg hcond]⟩
  · intro jobIndex job bulletIndex b e raw herr hne
    unfold mkExperienceScoredRow
    rw [herr]
    constructor
    · simp only [if_pos hne]
      decide
    · simp only [if_pos hne]

/-- Witness for C9 at a concrete run where the first bullet's scoring fails and
the second succeeds: the error row is recorded with the embedded error text, and
the later bullet is still scored and recorded. -/
theorem stage1_records_error_rows_witness :
    mkExperienceScoredRow 0 fixtureJob 0 "Built X" (MatchResult.err "API down" "raw out") ∈
      runStage1ScoreExperienceBullets
        (fun b => if b = "Built X" then MatchResult.err "API down" "raw out"
                  else MatchResult.ok 1 [] "fine") [fixtureJob] ∧
    (mkExperienceScoredRow 0 fixtureJob 0 "Built X"
        (MatchResult.err "API down" "raw out")).justification =
      "Error: API down. Raw: raw out" ∧
    mkExperienceScoredRow 0 fixtureJob 1 "Led Y" (MatchResult.ok 1 [] "fine") ∈
      runStage1ScoreExperienceBullets
        (fun b => if b = "Built X" then MatchResult.err "API down" "raw out"
                  else MatchResult.ok 1 [] "fine") [fixtureJob] := by
  have h := stage1_records_error_rows_and_continues
    (fun b => if b = "Built X" then MatchResult.err "API down" "raw out"
              else MatchResult.ok 1 [] "fine") [fixtureJob]
  refine ⟨?_, ?_, ?_⟩
  · exact h.2.1 0 fixtureJob (by decide) 0 "Built X" (by decide) (by decide)
  · exact (h.2.2 0 fixtureJob 0 "Built X" "API down" "raw out" (by decide) (by decide)).2
  · exact h.2.1 0 fixtureJob (by decide) 1 "Led Y" (by decide) (by decide)

/-! ## C8: score range -/

theorem toFixed2_mem_unitInterval {q : ℚ} (h0 : 0 ≤ q) (h1 : q ≤ 1) :
    0 ≤ toFixed2 q ∧ toFixed2 q ≤ 1 := by
  have hden : (0 : Int) < (q.den : Int) := by exact_mod_cast q.den_pos
  have hnum0 : 0 ≤ q.num := Rat.num_nonneg.mpr h0
  have hnumden : q.num ≤ (q.den : Int) := by
    have hq : (q.num : ℚ) / (q.den : ℚ) ≤ 1 := by
      rw [Rat.num_div_den q]; exact h1
    have hd : (0 : ℚ) < (q.den : ℚ) := by exact_mod_cast q.den_pos
    have h2 := (div_le_one hd).mp hq
    exact_mod_cast h2
  have hb : (0 : Int) < 2 * (q.den : Int) := by omega
  have hfd : (200 * q.num + (q.den : Int)).fdiv (2 * (q.den : Int)) =
      (200 * q.num + (q.den : Int)) / (2 * (q.den : Int)) :=
    Int.fdiv_eq_ediv _ (le_of_lt hb)
  have hk0 : 0 ≤ (200 * q.num + (q.den : Int)).fdiv (2 * (q.den : Int)) := by
    rw [hfd]
    exact Int.ediv_nonneg (by omega) (le_of_lt hb)
  have hk1 : (200 * q.num + (q.den : Int)).fdiv (2 * (q.den : Int)) ≤ 100 := by
    rw [hfd]
    have hlt : (200 * q.num + (q.den : Int)) / (2 * (q.den : Int)) < 101 := by
      rw [Int.ediv_lt_iff_lt_mul hb]
      omega
    omega
  unfold toFixed2
  rw [Rat.mkRat_eq_div]
  constructor
  · apply div_nonneg
    · exact_mod_cast hk0
    · norm_num
  · rw [div_le_one (by norm_num)]
    exact_mod_cast hk1

/-- C8 (amended): the stored relevance score is the response's numeric score
rounded to two decimals, with no clamping; whenever every numeric score the
scorer returns for a scored bullet lies in `[0, 1]` (as the prompt instructs the
model), every recorded row's `RelevanceScore` lies in `[0, 1]` (failed scorings
store `0.00`).  An out-of-range response score is stored out of range — see the
counterexample. -/
theorem stage1_scores_in_range (matchOracle : String → MatchResult)
    (jobs : List MasterJob)
    (hok : ∀ b s k j, matchOracle b = .ok s k j → 0 ≤ s ∧ s ≤ 1) :
    ∀ row ∈ runStage1ScoreExperienceBullets matchOracle jobs,
      0 ≤ row.relevanceScore ∧ row.relevanceScore ≤ 1 := by
  intro row hrow
  unfold runStage1ScoreExperienceBullets at hrow
  rcases List.mem_flatMap.mp hrow with ⟨ji, _, hinner⟩
  rcases List.mem_filterMap.mp hinner with ⟨bi, _, hval⟩
  by_cases hcond : bi.2 = "" ∨ jsTrim bi.2 = ""
  · rw [if_pos hcond] at hval
    cases hval
  · rw [if_neg hcond] at hval
    have hrow2 : mkExperienceScoredRow ji.1 ji.2 bi.1 bi.2 (matchOracle bi.2) = row :=
      Option.some.inj hval
    rw [← hrow2]
    cases horacle : matchOracle bi.2 with
    | ok s k j =>
      have hs := hok bi.2 s k j horacle
      unfold mkExperienceScoredRow
      dsimp only
      exact toFixed2_mem_unitInterval hs.1 hs.2
    | err e raw =>
      unfold mkExperienceScoredRow
      dsimp only
      exact toFixed2_mem_unitInterval le_rfl zero_le_one

/-- Witness for C8 at a concrete in-range run: the oracle scores every bullet
`0.9`, and both recorded rows' scores lie in `[0, 1]`. -/
theorem stage1_scores_in_range_witness :
    0 ≤ (mkExperienceScoredRow 0 fixtureJob 0 "Built X"
        (MatchResult.ok (mkRat 9 10) [] "good")).relevanceScore ∧
    (mkExperienceScoredRow 0 fixtureJob 0 "Built X"
        (MatchResult.ok (mkRat 9 10) [] "good")).relevanceScore ≤ 1 := by
  have h := stage1_scores_in_range (fun _ => MatchResult.ok (mkRat 9 10) [] "good")
    [fixtureJob]
    (fun b s k j hbs => by
      cases hbs
      constructor
      · exact of_decide_eq_true (by decide)
      · exact of_decide_eq_true (by decide))
  exact h (mkExperienceScoredRow 0 fixtureJob 0 "Built X"
    (MatchResult.ok (mkRat 9 10) [] "good")) (by decide)

/-- Counterexample for C8 as stated: a numeric response score of `1.5` is stored
unchanged (no clamping), so the recorded row's `RelevanceScore` is outside
`[0, 1]`. -/
theorem stage1_score_range_counterexample :
    ¬ (∀ row ∈ runStage1ScoreExperienceBullets
          (fun _ => MatchResult.ok (mkRat 3 2) [] "overenthusiastic") [fixtureJob],
        0 ≤ row.relevanceScore ∧ row.relevanceScore ≤ 1) := by
  intro hall
  have hmem : mkExperienceScoredRow 0 fixtureJob 0 "Built X"
      (MatchResult.ok (mkRat 3 2) [] "overenthusiastic") ∈
      runStage1ScoreExperienceBullets
        (fun _ => MatchResult.ok (mkRat 3 2) [] "overenthusiastic") [fixtureJob] := by
    decide
  have h := hall _ hmem
  have hgt : ¬ ((mkExperienceScoredRow 0 fixtureJob 0 "Built X"
      (MatchResult.ok (mkRat 3 2) [] "overenthusiastic")).relevanceScore ≤ 1) := by
    decide
  exact hgt h.2

/-! ## Stage-3 sorting lemmas -/

theorem sortByScoreDesc_perm (l : List ScoredRow) : (sortByScoreDesc l).Perm l :=
  List.perm_insertionSort scoreDescRel l

theorem mem_sortByScoreDesc {l : List ScoredRow} {r : ScoredRow} :
    r ∈ sortByScoreDesc l ↔ r ∈ l :=
  (sortByScoreDesc_perm l).mem_iff

theorem sortByScoreDesc_pairwise (l : List ScoredRow) :
    List.Pairwise scoreDescRel (sortByScoreDesc l) :=
  List.sorted_insertionSort scoreDescRel l

theorem sortByScoreDesc_length (l : List ScoredRow) :
    (sortByScoreDesc l).length = l.length :=
  (sortByScoreDesc_perm l).length_eq

theorem take_drop_scores (l : List ScoredRow) (cap : Nat) :
    ∀ a ∈ (sortByScoreDesc l).take cap, ∀ c ∈ (sortByScoreDesc l).drop cap,
      c.relevanceScore ≤ a.relevanceScore := by
  have hp := sortByScoreDesc_pairwise l
  rw [← List.take_append_drop cap (sortByScoreDesc l)] at hp
  exact (List.pairwise_append.mp hp).2.2

/-- Bullet-origin lemma: any bullet produced by taking from the sorted,
filtered scored-row list of one master item traces back to a qualifying row of
the base list. -/
theorem bullet_origin (base : List ScoredRow) (cap : Nat) (b : String)
    (hb : b ∈ ((sortByScoreDesc (base.filter stage3RowQualifies)).take cap).map
      getBulletTextToUse) :
    ∃ r ∈ base, stage3RowQualifies r = true ∧ getBulletTextToUse r = b := by
  rcases List.mem_map.mp hb with ⟨r, hr, hbr⟩
  have hr2 : r ∈ sortByScoreDesc (base.filter stage3RowQualifies) :=
    List.take_subset _ _ hr
  have hr3 : r ∈ base.filter stage3RowQualifies := mem_sortByScoreDesc.mp hr2
  exact ⟨r, List.mem_of_mem_filter hr3, List.of_mem_filter hr3, hbr⟩

/-! ## C1: bullets of dynamically assembled sections qualify -/

theorem assembleExperienceItem_bullets {rows : List ScoredRow} {job item : MasterJob}
    (h : assembleExperienceItem rows job = some item) :
    ∀ b ∈ item.responsibilities,
      ∃ r ∈ rows, stage3RowQualifies r = true ∧ getBulletTextToUse r = b := by
  intro b hb
  unfold assembleExperienceItem at h
  dsimp only at h
  by_cases h1 : (sortByScoreDesc ((experienceRowsForJob rows job).filter stage3RowQualifies)).length > 0
  · rw [if_pos h1] at h
    by_cases h2 : (((sortByScoreDesc ((experienceRowsForJob rows job).filter
        stage3RowQualifies)).take STAGE3_MAX_BULLETS_PER_JOB).map getBulletTextToUse).length > 0
    · rw [if_pos h2] at h
      have hitem := Option.some.inj h
      rw [← hitem] at hb
      have horigin := bullet_origin (experienceRowsForJob rows job)
        STAGE3_MAX_BULLETS_PER_JOB b hb
      rcases horigin with ⟨r, hrbase, hq, hbr⟩
      exact ⟨r, List.mem_of_mem_filter hrbase, hq, hbr⟩
    · rw [if_neg h2] at h
      cases h
  · rw [if_neg h1] at h
    cases h

theorem assembleProjectItem_bullets {rows : List ScoredRow} {proj item : MasterProject}
    (h : assembleProjectItem rows proj = some item) :
    ∀ b ∈ item.descriptionBullets,
      ∃ r ∈ rows, stage3RowQualifies r = true ∧ getBulletTextToUse r = b := by
  intro b hb
  unfold assembleProjectItem at h
  dsimp only at h
  by_cases h1 : (sortByScoreDesc ((projectRowsForProject rows proj).filter stage3RowQualifies)).length > 0
  · rw [if_pos h1] at h
    by_cases h2 : (((sortByScoreDesc ((projectRowsForProject rows proj).filter
        stage3RowQualifies)).take STAGE3_MAX_BULLETS_PER_PROJECT).map getBulletTextToUse).length > 0
    · rw [if_pos h2] at h
      have hitem := Option.some.inj h
      rw [← hitem] at hb
      have horigin := bullet_origin (projectRowsForProject rows proj)
        STAGE3_MAX_BULLETS_PER_PROJECT b hb
      rcases horigin with ⟨r, hrbase, hq, hbr⟩
      exact ⟨r, List.mem_of_mem_filter hrbase, hq, hbr⟩
    · rw [if_neg h2] at h
      cases h
  · rw [if_neg h1] at h
    cases h

theorem assembleLeadershipItem_bullets {rows : List ScoredRow} {lead item : MasterLead}
    (h : assembleLeadershipItem rows lead = some item) :
    ∀ b ∈ item.responsibilities,
      ∃ r ∈ rows, stage3RowQualifies r = true ∧ getBulletTextToUse r = b := by
  intro b hb
  unfold assembleLeadershipItem at h
  dsimp only at h
  by_cases h1 : (sortByScoreDesc ((leadershipRowsForItem rows lead).filter stage3RowQualifies)).length > 0
  · rw [if_pos h1] at h
    by_cases h2 : (((sortByScoreDesc ((leadershipRowsForItem rows lead).filter
        stage3RowQualifies)).take STAGE3_MAX_BULLETS_PER_JOB).map getBulletTextToUse).length > 0
    · rw [if_pos h2] at h
      have hitem := Option.some.inj h
      rw [← hitem] at hb
      have horigin := bullet_origin (leadershipRowsForItem rows lead)
        STAGE3_MAX_BULLETS_PER_JOB b hb
      rcases horigin with ⟨r, hrbase, hq, hbr⟩
      exact ⟨r, List.mem_of_mem_filter hrbase, hq, hbr⟩
    · rw [if_neg h2] at h
      cases h
  · rw [if_neg h1] at h
    cases h

/-- C1 (amended): every bullet of every item in a dynamically assembled section
of the stage-3 result traces back to a scored row that passes the inclusion
filter — its relevance score is at least `STAGE3_FINAL_INCLUSION_SCORE_THRESHOLD`
and its selection flag, uppercased and trimmed, is one of `"YES"`, `"TRUE"`,
`"1"`, `"X"` — and the bullet text is that row's resolved text.  Sections filled
verbatim by the static master fallback are exempt (see the counterexample). -/
theorem dynamic_bullets_have_qualifying_rows (master : MasterResume)
    (rows : List ScoredRow) :
    ∀ b ∈ (dynamicSections master rows).flatMap sectionBullets,
      ∃ r ∈ rows, stage3RowQualifies r = true ∧ getBulletTextToUse r = b := by
  intro b hb
  rcases List.mem_flatMap.mp hb with ⟨sec, hsec, hbsec⟩
  unfold dynamicSections at hsec
  dsimp only at hsec
  rcases List.mem_append.mp hsec with hsec1 | hsec4
  rcases List.mem_append.mp hsec1 with hsec2 | hsec3
  rcases List.mem_append.mp hsec2 with hexp | hproj
  -- EXPERIENCE part
  · by_cases hc : (assembleExperienceItems rows (master.experience.getD [])).length > 0
    · rw [if_pos hc] at hexp
      rcases List.mem_singleton.mp hexp with rfl
      unfold sectionBullets at hbsec
      rcases List.mem_flatMap.mp hbsec with ⟨item, hitem, hbi⟩
      rcases List.mem_filterMap.mp hitem with ⟨job, _, hjob⟩
      exact assembleExperienceItem_bullets hjob b hbi
    · rw [if_neg hc] at hexp
      cases hexp
  -- PROJECTS part
  · cases hmp : master.projects with
    | none =>
      rw [hmp] at hproj
      dsimp only at hproj
      cases hproj
    | some masterSubs =>
      rw [hmp] at hproj
      dsimp only at hproj
      by_cases hc : (assembleProjectSubsections rows masterSubs).any
          (fun ss => ss.items.length > 0)
      · rw [if_pos hc] at hproj
        rcases List.mem_singleton.mp hproj with rfl
        unfold sectionBullets at hbsec
        rcases List.mem_flatMap.mp hbsec with ⟨ss, hss, hbss⟩
        rcases List.mem_flatMap.mp hbss with ⟨item, hitem, hbi⟩
        unfold assembleProjectSubsections at hss
        rcases List.mem_filterMap.mp hss with ⟨masterSub, _, hsub⟩
        by_cases hlen : ((masterSub.items).filterMap (assembleProjectItem rows)).length > 0
        · rw [if_pos hlen] at hsub
          have hssval := Option.some.inj hsub
          rw [← hssval] at hitem
          rcases List.mem_filterMap.mp hitem with ⟨proj, _, hpr⟩
          exact assembleProjectItem_bullets hpr b hbi
        · rw [if_neg hlen] at hsub
          cases hsub
      · rw [if_neg hc] at hproj
        cases hproj
  -- LEADERSHIP part
  · by_cases hc : (assembleLeadershipItems rows (master.leadership.getD [])).length > 0
    · rw [if_pos hc] at hsec3
      rcases List.mem_singleton.mp hsec3 with rfl
      unfold sectionBullets at hbsec
      rcases List.mem_flatMap.mp hbsec with ⟨item, hitem, hbi⟩
      rcases List.mem_filterMap.mp hitem with ⟨lead, _, hld⟩
      exact assembleLeadershipItem_bullets hld b hbi
    · rw [if_neg hc] at hsec3
      cases hsec3
  -- TECHNICAL SKILLS part carries no bullet sequences
  · by_cases hc : (selectedTechRows rows).length > 0
    · rw [if_pos hc] at hsec4
      by_cases hc2 : (assembleTechSubsections master.techSkills rows).length > 0
      · rw [if_pos hc2] at hsec4
        rcases List.mem_singleton.mp hsec4 with rfl
        cases hbsec
      · rw [if_neg hc2] at hsec4
        cases hsec4
    · rw [if_neg hc] at hsec4
      cases hsec4

/-- Witness for C1 at a concrete selected row: the only dynamic bullet traces
back to the qualifying row. -/
theorem dynamic_bullets_have_qualifying_rows_witness :
    ∃ r ∈ [selectedRow], stage3RowQualifies r = true ∧
      getBulletTextToUse r = "Built X" :=
  dynamic_bullets_have_qualifying_rows fixtureMaster [selectedRow] "Built X" (by decide)

/-- Counterexample for C1 as stated: with a master resume whose only scored row
is not selected (blank flag), stage 3 assembles no dynamic EXPERIENCE section,
and the static fallback copies the master EXPERIENCE section verbatim into the
final record — so the final record carries bullets whose originating rows do
not pass the score-and-selection filter. -/
theorem finalRecord_bullets_qualify_counterexample :
    ¬ (∀ b ∈ (runStage3Sections fixtureMaster [unselectedRow]).flatMap sectionBullets,
        ∃ r ∈ [unselectedRow], stage3RowQualifies r = true ∧
          getBulletTextToUse r = b) := by
  decide

/-! ## C2: per-item caps and highest-score selection -/

theorem take_sorted_spec (base : List ScoredRow) (cap : Nat) :
    ((sortByScoreDesc (base.filter stage3RowQualifies)).take cap).length ≤ cap ∧
    ((sortByScoreDesc (base.filter stage3RowQualifies)).take cap ++
        (sortByScoreDesc (base.filter stage3RowQualifies)).drop cap).Perm
      (base.filter stage3RowQualifies) ∧
    (cap < (base.filter stage3RowQualifies).length →
      ((sortByScoreDesc (base.filter stage3RowQualifies)).take cap).length = cap) ∧
    (∀ a ∈ (sortByScoreDesc (base.filter stage3RowQualifies)).take cap,
      ∀ c ∈ (sortByScoreDesc (base.filter stage3RowQualifies)).drop cap,
        c.relevanceScore ≤ a.relevanceScore) := by
  refine ⟨?_, ?_, ?_, take_drop_scores _ cap⟩
  · rw [List.length_take]
    exact min_le_left _ _
  · rw [List.take_append_drop]
    exact sortByScoreDesc_perm _
  · intro hlt
    rw [List.length_take, sortByScoreDesc_length]
    omega

/-- C2 (amended): every item produced by the dynamic stage-3 assembly carries at
most its cap of bullets (`STAGE3_MAX_BULLETS_PER_JOB` for experience and
leadership items, `STAGE3_MAX_BULLETS_PER_PROJECT` for projects), the cap is
reached exactly when more rows qualify than the cap, and the kept rows form a
top-scoring subset: the qualifying rows split into `kept ++ dropped` (up to
permutation) with every kept row scoring at least every dropped row.  Items
copied verbatim by the static fallback are exempt (see the counterexample). -/
theorem dynamic_items_cap_and_top_scores (rows : List ScoredRow) :
    (∀ masterJob item, assembleExperienceItem rows masterJob = some item →
      item.responsibilities.length ≤ STAGE3_MAX_BULLETS_PER_JOB ∧
      ∃ kept dropped : List ScoredRow,
        (kept ++ dropped).Perm ((experienceRowsForJob rows masterJob).filter stage3RowQualifies) ∧
        item.responsibilities = kept.map getBulletTextToUse ∧
        (STAGE3_MAX_BULLETS_PER_JOB <
            ((experienceRowsForJob rows masterJob).filter stage3RowQualifies).length →
          kept.length = STAGE3_MAX_BULLETS_PER_JOB) ∧
        (∀ a ∈ kept, ∀ c ∈ dropped, c.relevanceScore ≤ a.relevanceScore)) ∧
    (∀ masterProject item, assembleProjectItem rows masterProject = some item →
      item.descriptionBullets.length ≤ STAGE3_MAX_BULLETS_PER_PROJECT ∧
      ∃ kept dropped : List ScoredRow,
        (kept ++ dropped).Perm ((projectRowsForProject rows masterProject).filter stage3RowQualifies) ∧
        item.descriptionBullets = kept.map getBulletTextToUse ∧
        (STAGE3_MAX_BULLETS_PER_PROJECT <
            ((projectRowsForProject rows masterProject).filter stage3RowQualifies).length →
          kept.length = STAGE3_MAX_BULLETS_PER_PROJECT) ∧
        (∀ a ∈ kept, ∀ c ∈ dropped, c.relevanceScore ≤ a.relevanceScore)) ∧
    (∀ masterLead item, assembleLeadershipItem rows masterLead = some item →
      item.responsibilities.length ≤ STAGE3_MAX_BULLETS_PER_JOB ∧
      ∃ kept dropped : List ScoredRow,
        (kept ++ dropped).Perm ((leadershipRowsForItem rows masterLead).filter stage3RowQualifies) ∧
        item.responsibilities = kept.map getBulletTextToUse ∧
        (STAGE3_MAX_BULLETS_PER_JOB <
            ((leadershipRowsForItem rows masterLead).filter stage3RowQualifies).length →
          kept.length = STAGE3_MAX_BULLETS_PER_JOB) ∧
        (∀ a ∈ kept, ∀ c ∈ dropped, c.relevanceScore ≤ a.relevanceScore)) := by
  refine ⟨?_, ?_, ?_⟩
  · intro masterJob item h
    unfold assembleExperienceItem at h
    dsimp only at h
    by_cases h1 : (sortByScoreDesc ((experienceRowsForJob rows masterJob).filter stage3RowQualifies)).length > 0
    · rw [if_pos h1] at h
      by_cases h2 : (((sortByScoreDesc ((experienceRowsForJob rows masterJob).filter
          stage3RowQualifies)).take STAGE3_MAX_BULLETS_PER_JOB).map getBulletTextToUse).length > 0
      · rw [if_pos h2] at h
        have hitem := Option.some.inj h
        rcases take_sorted_spec (experienceRowsForJob rows masterJob)
          STAGE3_MAX_BULLETS_PER_JOB with ⟨hlen, hperm, hcap, hord⟩
        refine ⟨?_, (sortByScoreDesc ((experienceRowsForJob rows masterJob).filter
            stage3RowQualifies)).take STAGE3_MAX_BULLETS_PER_JOB,
          (sortByScoreDesc ((experienceRowsForJob rows masterJob).filter
            stage3RowQualifies)).drop STAGE3_MAX_BULLETS_PER_JOB,
          hperm, ?_, hcap, hord⟩
        · rw [← hitem]
          simp only [List.length_map]
          exact hlen
        · rw [← hitem]
      · rw [if_neg h2] at h
        cases h
    · rw [if_neg h1] at h
      cases h
  · intro masterProject item h
    unfold assembleProjectItem at h
    dsimp only at h
    by_cases h1 : (sortByScoreDesc ((projectRowsForProject rows masterProject).filter stage3RowQualifies)).length > 0
    · rw [if_pos h1] at h
      by_cases h2 : (((sortByScoreDesc ((projectRowsForProject rows masterProject).filter
          stage3RowQualifies)).take STAGE3_MAX_BULLETS_PER_PROJECT).map getBulletTextToUse).length > 0
      · rw [if_pos h2] at h
        have hitem := Option.some.inj h
        rcases take_sorted_spec (projectRowsForProject rows masterProject)
          STAGE3_MAX_BULLETS_PER_PROJECT with ⟨hlen, hperm, hcap, hord⟩
        refine ⟨?_, (sortByScoreDesc ((projectRowsForProject rows masterProject).filter
            stage3RowQualifies)).take STAGE3_MAX_BULLETS_PER_PROJECT,
          (sortByScoreDesc ((projectRowsForProject rows masterProject).filter
            stage3RowQualifies)).drop STAGE3_MAX_BULLETS_PER_PROJECT,
          hperm, ?_, hcap, hord⟩
        · rw [← hitem]
          simp only [List.length_map]
          exact hlen
        · rw [← hitem]
      · rw [if_neg h2] at h
        cases h
    · rw [if_neg h1] at h
      cases h
  · intro masterLead item h
    unfold assembleLeadershipItem at h
    dsimp only at h
    by_cases h1 : (sortByScoreDesc ((leadershipRowsForItem rows masterLead).filter stage3RowQualifies)).length > 0
    · rw [if_pos h1] at h
      by_cases h2 : (((sortByScoreDesc ((leadershipRowsForItem rows masterLead).filter
          stage3RowQualifies)).take STAGE3_MAX_BULLETS_PER_JOB).map getBulletTextToUse).length > 0
      · rw [if_pos h2] at h
        have hitem := Option.some.inj h
        rcases take_sorted_spec (leadershipRowsForItem rows masterLead)
          STAGE3_MAX_BULLETS_PER_JOB with ⟨hlen, hperm, hcap, hord⟩
        refine ⟨?_, (sortByScoreDesc ((leadershipRowsForItem rows masterLead).filter
            stage3RowQualifies)).take STAGE3_MAX_BULLETS_PER_JOB,
          (sortByScoreDesc ((leadershipRowsForItem rows masterLead).filter
            stage3RowQualifies)).drop STAGE3_MAX_BULLETS_PER_JOB,
          hperm, ?_, hcap, hord⟩
        · rw [← hitem]
          simp only [List.length_map]
          exact hlen
        · rw [← hitem]
      · rw [if_neg h2] at h
        cases h
    · rw [if_neg h1] at h
      cases h

/-- Witness for C2 at a concrete input: the assembled item of `fixtureJob`
(if any) respects the experience cap. -/
theorem dynamic_items_cap_witness :
    (assembleExperienceItem [selectedRow] fixtureJob).elim True
      (fun item => item.responsibilities.length ≤ STAGE3_MAX_BULLETS_PER_JOB) := by
  cases heq : assembleExperienceItem [selectedRow] fixtureJob with
  | none => trivial
  | some item =>
    exact ((dynamic_items_cap_and_top_scores [selectedRow]).1 fixtureJob item heq).1

/-- Counterexample for C2 as stated: with no qualifying rows at all, the
six-bullet master job is copied verbatim into the final record by the static
fallback, exceeding `STAGE3_MAX_BULLETS_PER_JOB`. -/
theorem finalRecord_cap_counterexample :
    ¬ (∀ sec ∈ runStage3Sections fixtureMasterSix [],
        ∀ item ∈ sectionExperienceItems sec,
          item.responsibilities.length ≤ STAGE3_MAX_BULLETS_PER_JOB) := by
  decide

/-! ## C3: items with zero qualifying rows are dropped from dynamic assembly -/

/-- C3 (amended): a master item none of whose scored rows passes the
score-threshold-and-selected filter contributes nothing to the dynamically
assembled section — the per-item assembler returns `none` for it, whatever
other non-empty metadata the item carries.  Such an item can still reappear
verbatim when its entire section is empty dynamically and the static master
fallback copies the master section (see the counterexample). -/
theorem zero_qualifying_items_dropped (rows : List ScoredRow) :
    (∀ masterJob : MasterJob,
      (experienceRowsForJob rows masterJob).filter stage3RowQualifies = [] →
      assembleExperienceItem rows masterJob = none) ∧
    (∀ masterProject : MasterProject,
      (projectRowsForProject rows masterProject).filter stage3RowQualifies = [] →
      assembleProjectItem rows masterProject = none) ∧
    (∀ masterLead : MasterLead,
      (leadershipRowsForItem rows masterLead).filter stage3RowQualifies = [] →
      assembleLeadershipItem rows masterLead = none) := by
  refine ⟨?_, ?_, ?_⟩
  · intro masterJob hempty
    unfold assembleExperienceItem
    dsimp only
    rw [hempty]
    rfl
  · intro masterProject hempty
    unfold assembleProjectItem
    dsimp only
    rw [hempty]
    rfl
  · intro masterLead hempty
    unfold assembleLeadershipItem
    dsimp only
    rw [hempty]
    rfl

/-- Witness for C3 at a concrete input: the only row for `fixtureJob` is not
selected, so the job contributes no dynamic EXPERIENCE item. -/
theorem zero_qualifying_items_dropped_witness :
    assembleExperienceItem [unselectedRow] fixtureJob = none :=
  (zero_qualifying_items_dropped [unselectedRow]).1 fixtureJob (by decide)

/-- Counterexample for C3 as stated: `fixtureJob` has zero qualifying rows, yet
it appears (with all its master metadata and bullets) in the final record,
because its whole section fell back to the master copy. -/
theorem droppedItem_reappears_counterexample :
    (experienceRowsForJob [unselectedRow] fixtureJob).filter stage3RowQualifies = [] ∧
    ¬ (∀ sec ∈ runStage3Sections fixtureMaster [unselectedRow],
        fixtureJob ∉ sectionExperienceItems sec) := by
  constructor
  · decide
  · decide
